import Mathlib

/-!
Shallow embedding of src/scripts/freshdesk-api.js (class FreshdeskApi).

The JavaScript class wraps the Freshdesk Solutions REST API.  Its methods are
thin asynchronous pipelines over a fetch call: the network is therefore
modelled as an oracle, an explicit FetchOutcome argument giving the result of
each fetch the method may issue.  Each method is translated into a pure Lean
function that returns a trace: the value produced (or error raised), the final
value of the mutable rateLimited flag, the list of HTTP requests issued, and
the lines written to standard output.
-/

namespace Freshdesk

/-- An HTTP request as assembled by the client: method, URL, optional
JSON-encoded body (the result of JSON.stringify on the caller's body), and the
headers passed to fetch. -/
structure Request where
  method : String
  url : String
  body : Option String
  headers : List (String × String)
deriving DecidableEq, Repr

/-- A completed HTTP response, as consumed by checkStatus and by .json().
bodyJson stands for the parsed JSON document of the body (opaque to the
client, which never inspects it).  Headers are a name/value list; lookup is
case-insensitive as in the fetch Headers class. -/
structure Response where
  status : Nat
  statusText : String
  headers : List (String × String)
  bodyJson : String
deriving DecidableEq, Repr

/-- res.ok of the fetch Response class: status in the 200..299 range. -/
def Response.ok (r : Response) : Bool :=
  200 ≤ r.status && r.status < 300

/-- ASCII lowercasing of a header name, character by character. -/
def asciiLower (s : String) : String :=
  String.mk (s.toList.map Char.toLower)

/-- res.headers.get(name): case-insensitive header lookup, none when the
header is absent (JS null). -/
def Response.headersGet (r : Response) (name : String) : Option String :=
  (r.headers.find? (fun p => asciiLower p.fst == asciiLower name)).map (fun p => p.snd)

/-- The errors the client can raise.  In the source all three are plain
JavaScript Error values distinguished by which fields are set:
httpError is the Error built at lines 92-96 of checkStatus (code set to the
HTTP status, retryAfter set from the Retry-After header when the status is
429, otherwise left undefined, here none); nonJson is the Error thrown at
line 89 (no code field); transport is a rejection of fetch itself (no
numeric code field). -/
inductive FreshdeskErr where
  | httpError (message : String) (code : Nat) (retryAfter : Option String)
  | nonJson (message : String)
  | transport (message : String)
deriving DecidableEq, Repr

/-- err.code: defined (some) only for the HTTP-status error; reading it on
the other errors yields undefined, modelled as none. -/
def FreshdeskErr.code : FreshdeskErr → Option Nat
  | .httpError _ c _ => some c
  | .nonJson _ => none
  | .transport _ => none

/-- err.message of the underlying Error value. -/
def FreshdeskErr.message : FreshdeskErr → String
  | .httpError m _ _ => m
  | .nonJson m => m
  | .transport m => m

/-- err.retryAfter: set only on the 429 HTTP error (none elsewhere). -/
def FreshdeskErr.retryAfter : FreshdeskErr → Option String
  | .httpError _ _ ra => ra
  | .nonJson _ => none
  | .transport _ => none

/-- checkStatus (freshdesk-api.js lines 84-98).  If res.ok and the
content-type header starts with application/json, return the response.
If res.ok but the content-type does not (or the header is absent, in which
case the template literal renders null), throw the not-json Error.
Otherwise throw an Error with message from statusText, code from status,
and, for status 429, retryAfter from the Retry-After header. -/
def checkStatus (res : Response) : Except FreshdeskErr Response :=
  if res.ok then
    match res.headersGet "content-type" with
    | some ct =>
      if ct.startsWith "application/json" then .ok res
      else .error (.nonJson ("response not json: " ++ ct))
    | none => .error (.nonJson ("response not json: null"))
  else
    .error (.httpError ("response " ++ res.statusText) res.status
      (if res.status = 429 then res.headersGet "Retry-After" else none))

/-- The outcome handed back by one fetch call: either the promise resolved
with a Response, or it rejected with a transport-level failure. -/
inductive FetchOutcome where
  | response (r : Response)
  | transport (msg : String)
deriving DecidableEq, Repr

/-- The pipeline fetch(...).then(checkStatus).then(res to res.json()) shared
by every method: a transport rejection propagates, a response goes through
checkStatus and, on success, yields the parsed JSON body. -/
def fetchJson (o : FetchOutcome) : Except FreshdeskErr String :=
  match o with
  | .transport msg => .error (.transport msg)
  | .response r =>
    match checkStatus r with
    | .ok r2 => .ok r2.bodyJson
    | .error e => .error e

/-- Base64 alphabet used by Buffer.toString with the base64 encoding. -/
def base64Table : List Char :=
  "ABCDEFGHIJKLMNOPQRSTUVWXYZabcdefghijklmnopqrstuvwxyz0123456789+/".toList

/-- Character of the base64 alphabet at a 6-bit index. -/
def base64Char (n : Nat) : Char :=
  base64Table.getD n '='

/-- Standard base64 over a byte list, in 3-byte groups with padding, as
produced by Buffer.toString with the base64 encoding. -/
def base64Go : List Nat → List Char
  | [] => []
  | [a] =>
    [base64Char (a / 4), base64Char (a % 4 * 16), '=', '=']
  | [a, b] =>
    [base64Char (a / 4), base64Char (a % 4 * 16 + b / 16),
     base64Char (b % 16 * 4), '=']
  | a :: b :: c :: rest =>
    base64Char (a / 4) :: base64Char (a % 4 * 16 + b / 16) ::
    base64Char (b % 16 * 4 + c / 64) :: base64Char (c % 64) :: base64Go rest

/-- Buffer.from(s).toString of a string with the base64 encoding: base64 of
its UTF-8 bytes. -/
def base64 (s : String) : String :=
  String.mk (base64Go (s.toUTF8.data.toList.map (fun b => b.toNat)))

/-- The instance state of the FreshdeskApi class: baseUrl, the default
headers computed at construction, and the mutable rateLimited flag. -/
structure FreshdeskApi where
  baseUrl : String
  defaultHeaders : List (String × String)
  rateLimited : Bool
deriving DecidableEq, Repr

/-- The constructor (lines 68-76): stores baseUrl, computes the Basic auth
value from apiKey, stores the two default headers, and initializes
rateLimited to false.  It is a pure function: no request is issued. -/
def FreshdeskApi.new (baseUrl apiKey : String) : FreshdeskApi :=
  { baseUrl := baseUrl,
    defaultHeaders :=
      [("Content-Type", "application/json"),
       ("Authorization", "Basic " ++ base64 (apiKey ++ ":X"))],
    rateLimited := false }

/-- Trace of a list operation: the value returned or error raised, the
rateLimited flag afterwards, and the requests issued. -/
instance : DecidableEq (Except FreshdeskErr String) := fun a b =>
  match a, b with
  | .ok x, .ok y => if h : x = y then .isTrue (by rw [h]) else .isFalse (by simp [h])
  | .error x, .error y => if h : x = y then .isTrue (by rw [h]) else .isFalse (by simp [h])
  | .ok _, .error _ => .isFalse (by simp)
  | .error _, .ok _ => .isFalse (by simp)

structure ListTrace where
  result : Except FreshdeskErr String
  rateLimited : Bool
  requests : List Request
deriving DecidableEq, Repr

/-- Shared body of the three list methods: one GET with the default headers,
checkStatus then .json(); the rateLimited flag is never read or written. -/
def listOp (api : FreshdeskApi) (url : String) (outcome : FetchOutcome) : ListTrace :=
  { result := fetchJson outcome,
    rateLimited := api.rateLimited,
    requests := [{ method := "GET", url := url, body := none,
                   headers := api.defaultHeaders }] }

/-- listCategories (lines 105-109). -/
def listCategories (api : FreshdeskApi) (outcome : FetchOutcome) : ListTrace :=
  listOp api (api.baseUrl ++ "/api/v2/solutions/categories") outcome

/-- listFolders (lines 116-123); categoryId is category.id rendered into the
URL template. -/
def listFolders (api : FreshdeskApi) (categoryId : String) (outcome : FetchOutcome) : ListTrace :=
  listOp api (api.baseUrl ++ "/api/v2/solutions/categories/" ++ categoryId ++ "/folders") outcome

/-- listArticles (lines 130-137); folderId is folder.id rendered into the
URL template. -/
def listArticles (api : FreshdeskApi) (folderId : String) (outcome : FetchOutcome) : ListTrace :=
  listOp api (api.baseUrl ++ "/api/v2/solutions/folders/" ++ folderId ++ "/articles") outcome

/-- What an upsert method hands its caller: the -1 sentinel returned when
rate limited, a parsed JSON success value, or a raised error. -/
inductive UpsertResult where
  | minusOne
  | json (j : String)
  | failure (e : FreshdeskErr)
deriving DecidableEq, Repr

/-- Final value or raised error of a fetch pipeline, as an UpsertResult. -/
def resultOfFetch : Except FreshdeskErr String → UpsertResult
  | .ok j => .json j
  | .error e => .failure e

/-- Trace of an upsert-translation operation. -/
structure UpsertTrace where
  result : UpsertResult
  rateLimited : Bool
  requests : List Request
  stdoutLines : List String
deriving DecidableEq, Repr

/-- The entity kind, fixing the URL path segment of the three upsert
methods. -/
inductive Entity where
  | categories
  | folders
  | articles
deriving DecidableEq, Repr

/-- URL path segment of each entity kind. -/
def Entity.path : Entity → String
  | .categories => "categories"
  | .folders => "folders"
  | .articles => "articles"

/-- Shared body of updateCategoryTranslation (lines 147-180),
updateFolderTranslation (lines 190-223) and updateArticleTranslation
(lines 233-266), which are identical except for the entity path segment.

Control flow of the source: if rateLimited, write the skip line and return
-1 with no fetch.  Otherwise PUT the JSON-encoded body to the template URL
with the default headers, through checkStatus and .json().  The .catch
handler receives any failure err of that chain: when err.code is 404 it
RETURNS the POST chain to the same URL with the same body and headers, so
that chain's outcome (success or failure) becomes the operation's outcome
and a failure of the POST never reaches the 429 check or the log line,
which run only for a non-404 err of the PUT chain; there, code 429 sets
this.rateLimited, the error line is written, and err is rethrown. -/
def upsertTranslation (api : FreshdeskApi) (e : Entity) (id locale bodyJson : String)
    (putOutcome postOutcome : FetchOutcome) : UpsertTrace :=
  if api.rateLimited then
    { result := .minusOne,
      rateLimited := api.rateLimited,
      requests := [],
      stdoutLines := ["Rate limited, skipping id: " ++ id ++ " for " ++ locale] }
  else
    let url := api.baseUrl ++ "/api/v2/solutions/" ++ e.path ++ "/" ++ id ++ "/" ++ locale
    let putReq : Request :=
      { method := "put", url := url, body := some bodyJson, headers := api.defaultHeaders }
    match fetchJson putOutcome with
    | .ok j =>
      { result := .json j, rateLimited := api.rateLimited,
        requests := [putReq], stdoutLines := [] }
    | .error err =>
      if err.code = some 404 then
        let postReq : Request :=
          { method := "post", url := url, body := some bodyJson, headers := api.defaultHeaders }
        { result := resultOfFetch (fetchJson postOutcome),
          rateLimited := api.rateLimited,
          requests := [putReq, postReq],
          stdoutLines := [] }
      else
        { result := .failure err,
          rateLimited := if err.code = some 429 then true else api.rateLimited,
          requests := [putReq],
          stdoutLines := ["Error processing id " ++ id ++ " for locale " ++ locale
            ++ ": " ++ err.message] }

/-- updateCategoryTranslation (lines 147-180). -/
def updateCategoryTranslation (api : FreshdeskApi) (id locale bodyJson : String)
    (putOutcome postOutcome : FetchOutcome) : UpsertTrace :=
  upsertTranslation api .categories id locale bodyJson putOutcome postOutcome

/-- updateFolderTranslation (lines 190-223). -/
def updateFolderTranslation (api : FreshdeskApi) (id locale bodyJson : String)
    (putOutcome postOutcome : FetchOutcome) : UpsertTrace :=
  upsertTranslation api .folders id locale bodyJson putOutcome postOutcome

/-- updateArticleTranslation (lines 233-266). -/
def updateArticleTranslation (api : FreshdeskApi) (id locale bodyJson : String)
    (putOutcome postOutcome : FetchOutcome) : UpsertTrace :=
  upsertTranslation api .articles id locale bodyJson putOutcome postOutcome

/-- Sanity check of the base64 encoder against a known Buffer value:
Buffer.from of the text abc:X in base64 is YWJjOlg=. -/
theorem base64_known_value : base64 "abc:X" = "YWJjOlg=" := by decide

/-- Concrete fixture: a freshly constructed client (rateLimited is false). -/
def apiReady : FreshdeskApi :=
  FreshdeskApi.new "https://example.freshdesk.com" "key"

/-- Concrete fixture: the same client after its rate-limit flag tripped. -/
def apiTripped : FreshdeskApi :=
  { apiReady with rateLimited := true }

/-- C1: with the rate-limit flag false, when the initial PUT pipeline fails
with an error whose code is 404, the operation issues exactly one subsequent
POST to the same URL with the same JSON-encoded body and the same default
headers (the request list is exactly the PUT then that POST, so no further
fallback is made), and the final outcome equals the outcome of that POST. -/
theorem upsert_put404_exactly_one_post
    (api : FreshdeskApi) (e : Entity) (id locale bodyJson : String)
    (putOutcome postOutcome : FetchOutcome) (err : FreshdeskErr)
    (hrl : api.rateLimited = false)
    (hput : fetchJson putOutcome = .error err)
    (h404 : err.code = some 404) :
    (upsertTranslation api e id locale bodyJson putOutcome postOutcome).requests =
      [{ method := "put",
         url := api.baseUrl ++ "/api/v2/solutions/" ++ e.path ++ "/" ++ id ++ "/" ++ locale,
         body := some bodyJson, headers := api.defaultHeaders },
       { method := "post",
         url := api.baseUrl ++ "/api/v2/solutions/" ++ e.path ++ "/" ++ id ++ "/" ++ locale,
         body := some bodyJson, headers := api.defaultHeaders }] ∧
    (upsertTranslation api e id locale bodyJson putOutcome postOutcome).result =
      resultOfFetch (fetchJson postOutcome) := by
  simp [upsertTranslation, hrl, hput, h404]

/-- Witness for C1: PUT answered 404, POST answered 201 with a JSON body. -/
theorem upsert_put404_exactly_one_post_witness :
    (upsertTranslation apiReady .categories "1" "en" "null"
        (.response ⟨404, "Not Found", [("content-type", "application/json")], "x"⟩)
        (.response ⟨201, "Created", [("content-type", "application/json")], "created"⟩)).requests =
      [{ method := "put",
         url := apiReady.baseUrl ++ "/api/v2/solutions/" ++ Entity.path .categories
           ++ "/" ++ "1" ++ "/" ++ "en",
         body := some "null", headers := apiReady.defaultHeaders },
       { method := "post",
         url := apiReady.baseUrl ++ "/api/v2/solutions/" ++ Entity.path .categories
           ++ "/" ++ "1" ++ "/" ++ "en",
         body := some "null", headers := apiReady.defaultHeaders }] ∧
    (upsertTranslation apiReady .categories "1" "en" "null"
        (.response ⟨404, "Not Found", [("content-type", "application/json")], "x"⟩)
        (.response ⟨201, "Created", [("content-type", "application/json")], "created"⟩)).result =
      resultOfFetch (fetchJson
        (.response ⟨201, "Created", [("content-type", "application/json")], "created"⟩)) :=
  upsert_put404_exactly_one_post apiReady .categories "1" "en" "null"
    (.response ⟨404, "Not Found", [("content-type", "application/json")], "x"⟩)
    (.response ⟨201, "Created", [("content-type", "application/json")], "created"⟩)
    (.httpError ("response " ++ "Not Found") 404 none)
    rfl (by decide) rfl

/-- C2 counterexample: the PUT fails with 404 and the fallback POST fails with
429, so the operation's failure carries code 429, yet the rateLimited flag
stays false: the catch handler returned the POST chain, so a POST failure
never reaches the code that sets the flag. -/
theorem upsert_post429_no_trip_counterexample :
    (upsertTranslation apiReady .folders "7" "en" "null"
        (.response ⟨404, "Not Found", [], "x"⟩)
        (.response ⟨429, "Too Many Requests", [], "x"⟩)).result =
      .failure (.httpError "response Too Many Requests" 429 none) ∧
    (upsertTranslation apiReady .folders "7" "en" "null"
        (.response ⟨404, "Not Found", [], "x"⟩)
        (.response ⟨429, "Too Many Requests", [], "x"⟩)).rateLimited = false := by
  decide

/-- C2 amended: a failure of the initial PUT whose code is 429 sets the
rateLimited flag; but when the PUT fails with 404, the operation's outcome is
the fallback POST chain returned from the catch handler, and the flag is left
unchanged (false) no matter how that POST ends, even with a 429. -/
theorem upsert_rate_limit_trip
    (api : FreshdeskApi) (e : Entity) (id locale bodyJson : String)
    (putOutcome postOutcome : FetchOutcome) (err : FreshdeskErr)
    (hrl : api.rateLimited = false)
    (hput : fetchJson putOutcome = .error err) :
    (err.code = some 429 →
      (upsertTranslation api e id locale bodyJson putOutcome postOutcome).rateLimited = true) ∧
    (err.code = some 404 →
      (upsertTranslation api e id locale bodyJson putOutcome postOutcome).rateLimited = false) := by
  constructor
  · intro h429
    simp [upsertTranslation, hrl, hput, h429]
  · intro h404
    simp [upsertTranslation, hrl, hput, h404]

/-- Witness for C2 amended: a PUT answered 429 trips the flag. -/
theorem upsert_rate_limit_trip_witness :
    (upsertTranslation apiReady .categories "1" "en" "null"
        (.response ⟨429, "Too Many Requests", [], "x"⟩)
        (.response ⟨200, "OK", [("content-type", "application/json")], "y"⟩)).rateLimited = true :=
  (upsert_rate_limit_trip apiReady .categories "1" "en" "null"
    (.response ⟨429, "Too Many Requests", [], "x"⟩)
    (.response ⟨200, "OK", [("content-type", "application/json")], "y"⟩)
    (.httpError ("response " ++ "Too Many Requests") 429 none)
    rfl (by decide)).1 rfl

/-- C3: whenever the rateLimited flag is true, every upsert call (any entity
kind, id, locale and body) returns the -1 sentinel, writes the skip line to
standard output, and issues no request: the whole trace is fixed. -/
theorem upsert_rate_limited_short_circuit
    (api : FreshdeskApi) (e : Entity) (id locale bodyJson : String)
    (putOutcome postOutcome : FetchOutcome)
    (hrl : api.rateLimited = true) :
    upsertTranslation api e id locale bodyJson putOutcome postOutcome =
      { result := .minusOne,
        rateLimited := true,
        requests := [],
        stdoutLines := ["Rate limited, skipping id: " ++ id ++ " for " ++ locale] } := by
  simp [upsertTranslation, hrl]

/-- Witness for C3: a tripped client skips the network entirely. -/
theorem upsert_rate_limited_short_circuit_witness :
    upsertTranslation apiTripped .articles "42" "fr" "null"
        (.response ⟨200, "OK", [("content-type", "application/json")], "y"⟩)
        (.response ⟨200, "OK", [("content-type", "application/json")], "y"⟩) =
      { result := .minusOne,
        rateLimited := true,
        requests := [],
        stdoutLines := ["Rate limited, skipping id: " ++ "42" ++ " for " ++ "fr"] } :=
  upsert_rate_limited_short_circuit apiTripped .articles "42" "fr" "null"
    (.response ⟨200, "OK", [("content-type", "application/json")], "y"⟩)
    (.response ⟨200, "OK", [("content-type", "application/json")], "y"⟩) rfl

/-- C4 counterexample: the PUT fails with 404 and the fallback POST fails with
500: a terminal failure of the operation, yet nothing is written to standard
output — the error line only runs for non-404 failures of the PUT chain. -/
theorem upsert_post_failure_unlogged_counterexample :
    (upsertTranslation apiReady .articles "42" "fr" "null"
        (.response ⟨404, "Not Found", [], "x"⟩)
        (.response ⟨500, "Internal Server Error", [], "x"⟩)).result =
      .failure (.httpError "response Internal Server Error" 500 none) ∧
    (upsertTranslation apiReady .articles "42" "fr" "null"
        (.response ⟨404, "Not Found", [], "x"⟩)
        (.response ⟨500, "Internal Server Error", [], "x"⟩)).stdoutLines = [] := by
  decide

/-- C4 amended: a terminal failure of the initial PUT with code other than
404 is re-raised after the error line naming the id, locale and message is
written; a failure of the fallback POST taken after a 404 is re-raised to the
caller but no diagnostic line is written. -/
theorem upsert_terminal_failure_diagnostics
    (api : FreshdeskApi) (e : Entity) (id locale bodyJson : String)
    (putOutcome postOutcome : FetchOutcome) (err : FreshdeskErr)
    (hrl : api.rateLimited = false)
    (hput : fetchJson putOutcome = .error err) :
    (err.code ≠ some 404 →
      (upsertTranslation api e id locale bodyJson putOutcome postOutcome).result =
        .failure err ∧
      (upsertTranslation api e id locale bodyJson putOutcome postOutcome).stdoutLines =
        ["Error processing id " ++ id ++ " for locale " ++ locale ++ ": " ++ err.message]) ∧
    (∀ err2, err.code = some 404 → fetchJson postOutcome = .error err2 →
      (upsertTranslation api e id locale bodyJson putOutcome postOutcome).result =
        .failure err2 ∧
      (upsertTranslation api e id locale bodyJson putOutcome postOutcome).stdoutLines = []) := by
  constructor
  · intro hne
    simp [upsertTranslation, hrl, hput, hne, resultOfFetch]
  · intro err2 h404 hpost
    simp [upsertTranslation, hrl, hput, h404, hpost, resultOfFetch]

/-- Witness for C4 amended: a PUT answered 500 is logged and re-raised. -/
theorem upsert_terminal_failure_diagnostics_witness :
    (upsertTranslation apiReady .categories "1" "en" "null"
        (.response ⟨500, "Internal Server Error", [], "x"⟩)
        (.response ⟨200, "OK", [("content-type", "application/json")], "y"⟩)).result =
      .failure (.httpError ("response " ++ "Internal Server Error") 500 none) ∧
    (upsertTranslation apiReady .categories "1" "en" "null"
        (.response ⟨500, "Internal Server Error", [], "x"⟩)
        (.response ⟨200, "OK", [("content-type", "application/json")], "y"⟩)).stdoutLines =
      ["Error processing id " ++ "1" ++ " for locale " ++ "en" ++ ": "
        ++ FreshdeskErr.message (.httpError ("response " ++ "Internal Server Error") 500 none)] :=
  (upsert_terminal_failure_diagnostics apiReady .categories "1" "en" "null"
    (.response ⟨500, "Internal Server Error", [], "x"⟩)
    (.response ⟨200, "OK", [("content-type", "application/json")], "y"⟩)
    (.httpError ("response " ++ "Internal Server Error") 500 none)
    rfl (by decide)).1 (by decide)

/-- C5: with the rate-limit flag false, when the initial PUT pipeline fails
with an error whose code is not 404, no POST is issued (the request list is
the PUT alone), that same failure is propagated unmodified, and the
rateLimited flag ends true exactly when the code is 429. -/
theorem upsert_non404_no_post
    (api : FreshdeskApi) (e : Entity) (id locale bodyJson : String)
    (putOutcome postOutcome : FetchOutcome) (err : FreshdeskErr)
    (hrl : api.rateLimited = false)
    (hput : fetchJson putOutcome = .error err)
    (hne : err.code ≠ some 404) :
    (upsertTranslation api e id locale bodyJson putOutcome postOutcome).requests =
      [{ method := "put",
         url := api.baseUrl ++ "/api/v2/solutions/" ++ e.path ++ "/" ++ id ++ "/" ++ locale,
         body := some bodyJson, headers := api.defaultHeaders }] ∧
    (upsertTranslation api e id locale bodyJson putOutcome postOutcome).result =
      .failure err ∧
    (err.code = some 429 →
      (upsertTranslation api e id locale bodyJson putOutcome postOutcome).rateLimited = true) ∧
    (err.code ≠ some 429 →
      (upsertTranslation api e id locale bodyJson putOutcome postOutcome).rateLimited = false) := by
  refine ⟨?_, ?_, ?_, ?_⟩
  · simp [upsertTranslation, hrl, hput, hne]
  · simp [upsertTranslation, hrl, hput, hne]
  · intro h429
    simp [upsertTranslation, hrl, hput, hne, h429]
  · intro h429
    simp [upsertTranslation, hrl, hput, hne, h429]

/-- Witness for C5: a PUT answered 403 issues no POST and is propagated. -/
theorem upsert_non404_no_post_witness :
    (upsertTranslation apiReady .folders "7" "en" "null"
        (.response ⟨403, "Forbidden", [], "x"⟩)
        (.response ⟨200, "OK", [("content-type", "application/json")], "y"⟩)).requests =
      [{ method := "put",
         url := apiReady.baseUrl ++ "/api/v2/solutions/" ++ Entity.path .folders
           ++ "/" ++ "7" ++ "/" ++ "en",
         body := some "null", headers := apiReady.defaultHeaders }] ∧
    (upsertTranslation apiReady .folders "7" "en" "null"
        (.response ⟨403, "Forbidden", [], "x"⟩)
        (.response ⟨200, "OK", [("content-type", "application/json")], "y"⟩)).result =
      .failure (.httpError ("response " ++ "Forbidden") 403 none) ∧
    ((.httpError ("response " ++ "Forbidden") 403 none : FreshdeskErr).code = some 429 →
      (upsertTranslation apiReady .folders "7" "en" "null"
        (.response ⟨403, "Forbidden", [], "x"⟩)
        (.response ⟨200, "OK", [("content-type", "application/json")], "y"⟩)).rateLimited = true) ∧
    ((.httpError ("response " ++ "Forbidden") 403 none : FreshdeskErr).code ≠ some 429 →
      (upsertTranslation apiReady .folders "7" "en" "null"
        (.response ⟨403, "Forbidden", [], "x"⟩)
        (.response ⟨200, "OK", [("content-type", "application/json")], "y"⟩)).rateLimited = false) :=
  upsert_non404_no_post apiReady .folders "7" "en" "null"
    (.response ⟨403, "Forbidden", [], "x"⟩)
    (.response ⟨200, "OK", [("content-type", "application/json")], "y"⟩)
    (.httpError ("response " ++ "Forbidden") 403 none)
    rfl (by decide) (by decide)

/-- C6: a response whose status is outside the success range makes
checkStatus fail with the HTTP error carrying that status as its code and the
status text in its message; when the status is exactly 429 the error also
carries the value of the Retry-After header (whatever headersGet yields,
in particular the value whenever the header is present). -/
theorem checkStatus_status_gate
    (res : Response) (hok : res.ok = false) :
    ∃ e, checkStatus res = .error e ∧
      FreshdeskErr.code e = some res.status ∧
      FreshdeskErr.message e = "response " ++ res.statusText ∧
      (res.status = 429 → FreshdeskErr.retryAfter e = res.headersGet "Retry-After") := by
  refine ⟨.httpError ("response " ++ res.statusText) res.status
    (if res.status = 429 then res.headersGet "Retry-After" else none), ?_, rfl, rfl, ?_⟩
  · simp [checkStatus, hok]
  · intro h429
    simp [FreshdeskErr.retryAfter, h429]

/-- Witness for C6: a 429 response with a Retry-After header. -/
theorem checkStatus_status_gate_witness :
    ∃ e, checkStatus ⟨429, "Too Many Requests", [("Retry-After", "60")], "x"⟩ = .error e ∧
      FreshdeskErr.code e =
        some (Response.status ⟨429, "Too Many Requests", [("Retry-After", "60")], "x"⟩) ∧
      FreshdeskErr.message e =
        "response " ++ Response.statusText ⟨429, "Too Many Requests", [("Retry-After", "60")], "x"⟩ ∧
      (Response.status ⟨429, "Too Many Requests", [("Retry-After", "60")], "x"⟩ = 429 →
        FreshdeskErr.retryAfter e =
          Response.headersGet ⟨429, "Too Many Requests", [("Retry-After", "60")], "x"⟩ "Retry-After") :=
  checkStatus_status_gate ⟨429, "Too Many Requests", [("Retry-After", "60")], "x"⟩ (by decide)

/-- C7: on a success-status response, checkStatus fails with the not-json
error carrying the actual content-type when that header does not start with
application/json (rendering null when the header is absent), and passes the
response through unchanged when it does start with application/json; the
response body is never consulted. -/
theorem checkStatus_content_type_gate
    (res : Response) (hok : res.ok = true) :
    (∀ ct, res.headersGet "content-type" = some ct →
      ct.startsWith "application/json" = false →
      checkStatus res = .error (.nonJson ("response not json: " ++ ct))) ∧
    (res.headersGet "content-type" = none →
      checkStatus res = .error (.nonJson "response not json: null")) ∧
    (∀ ct, res.headersGet "content-type" = some ct →
      ct.startsWith "application/json" = true →
      checkStatus res = .ok res) := by
  refine ⟨?_, ?_, ?_⟩
  · intro ct hct hstart
    simp [checkStatus, hok, hct, hstart]
  · intro hnone
    simp [checkStatus, hok, hnone]
  · intro ct hct hstart
    simp [checkStatus, hok, hct, hstart]

/-- Witness for C7: a 200 response with content-type text/html fails with
the not-json error carrying text/html. -/
theorem checkStatus_content_type_gate_witness :
    checkStatus ⟨200, "OK", [("Content-Type", "text/html")], "x"⟩ =
      .error (.nonJson ("response not json: " ++ "text/html")) :=
  (checkStatus_content_type_gate ⟨200, "OK", [("Content-Type", "text/html")], "x"⟩
    (by decide)).1 "text/html" (by decide) (by decide)

/-- C8: the constructor initializes rateLimited to false, and no operation of
the instance ever moves the flag from true back to false: an upsert run with
the flag true leaves it true, and the three list operations never change the
flag at all. -/
theorem rateLimited_never_reset :
    (∀ baseUrl apiKey, (FreshdeskApi.new baseUrl apiKey).rateLimited = false) ∧
    (∀ (api : FreshdeskApi) (e : Entity) (id locale bodyJson : String)
        (putOutcome postOutcome : FetchOutcome), api.rateLimited = true →
      (upsertTranslation api e id locale bodyJson putOutcome postOutcome).rateLimited = true) ∧
    (∀ (api : FreshdeskApi) (outcome : FetchOutcome),
      (listCategories api outcome).rateLimited = api.rateLimited) ∧
    (∀ (api : FreshdeskApi) (categoryId : String) (outcome : FetchOutcome),
      (listFolders api categoryId outcome).rateLimited = api.rateLimited) ∧
    (∀ (api : FreshdeskApi) (folderId : String) (outcome : FetchOutcome),
      (listArticles api folderId outcome).rateLimited = api.rateLimited) := by
  refine ⟨fun _ _ => rfl, ?_, fun _ _ => rfl, fun _ _ _ => rfl, fun _ _ _ => rfl⟩
  intro api e id locale bodyJson putOutcome postOutcome hrl
  simp [upsertTranslation, hrl]

/-- Witness for C8: an upsert on a tripped client leaves the flag true. -/
theorem rateLimited_never_reset_witness :
    (upsertTranslation apiTripped .categories "1" "en" "null"
        (.response ⟨200, "OK", [("content-type", "application/json")], "y"⟩)
        (.response ⟨200, "OK", [("content-type", "application/json")], "y"⟩)).rateLimited = true :=
  rateLimited_never_reset.2.1 apiTripped .categories "1" "en" "null"
    (.response ⟨200, "OK", [("content-type", "application/json")], "y"⟩)
    (.response ⟨200, "OK", [("content-type", "application/json")], "y"⟩) rfl

/-- C9: for every apiKey, construction stores exactly the two default
headers, with Content-Type application/json and the Authorization value
Basic followed by the base64 encoding of apiKey with the :X suffix, keeps
the base URL, and starts with rateLimited false; the constructor is a pure
state builder that issues no request. -/
theorem construction_auth_header (baseUrl apiKey : String) :
    (FreshdeskApi.new baseUrl apiKey).defaultHeaders =
      [("Content-Type", "application/json"),
       ("Authorization", "Basic " ++ base64 (apiKey ++ ":X"))] ∧
    (FreshdeskApi.new baseUrl apiKey).baseUrl = baseUrl ∧
    (FreshdeskApi.new baseUrl apiKey).rateLimited = false :=
  ⟨rfl, rfl, rfl⟩

/-- C10: each list operation issues its GET with the default headers no
matter the value of the rateLimited flag, and returns the flag unchanged no
matter the outcome, including a 429 failure. -/
theorem list_ops_not_gated
    (api : FreshdeskApi) (categoryId folderId : String) (outcome : FetchOutcome) :
    ((listCategories api outcome).requests =
       [{ method := "GET", url := api.baseUrl ++ "/api/v2/solutions/categories",
          body := none, headers := api.defaultHeaders }] ∧
     (listCategories api outcome).rateLimited = api.rateLimited ∧
     (listCategories api outcome).result = fetchJson outcome) ∧
    ((listFolders api categoryId outcome).requests =
       [{ method := "GET",
          url := api.baseUrl ++ "/api/v2/solutions/categories/" ++ categoryId ++ "/folders",
          body := none, headers := api.defaultHeaders }] ∧
     (listFolders api categoryId outcome).rateLimited = api.rateLimited ∧
     (listFolders api categoryId outcome).result = fetchJson outcome) ∧
    ((listArticles api folderId outcome).requests =
       [{ method := "GET",
          url := api.baseUrl ++ "/api/v2/solutions/folders/" ++ folderId ++ "/articles",
          body := none, headers := api.defaultHeaders }] ∧
     (listArticles api folderId outcome).rateLimited = api.rateLimited ∧
     (listArticles api folderId outcome).result = fetchJson outcome) :=
  ⟨⟨rfl, rfl, rfl⟩, ⟨rfl, rfl, rfl⟩, ⟨rfl, rfl, rfl⟩⟩

end Freshdesk
